import Mathlib

/-!
Shallow embedding of the telemetry context engine of `apex-engineer`
(`src/src/telemetry/context_engine.py`, class `ContextEngine`).

Telemetry samples are string-keyed Python dictionaries in the source; they are
modelled here as a record of optional fields where `none` means the key is
absent from the dictionary.  Numeric values are modelled as rationals (`ℚ`),
lap and gear counters as integers.  Python exceptions are modelled with
`Except String`: an `Except.error` value marks the exception that the
corresponding Python expression raises.
-/

namespace ApexEngineer

/-- The tire-temperature mapping carried by a sample: a dict with the four
fixed wheel keys.  A key may be missing from a partial reading, modelled by
`none`. -/
structure TireTemps where
  front_left : Option ℚ := none
  front_right : Option ℚ := none
  rear_left : Option ℚ := none
  rear_right : Option ℚ := none
  deriving Repr, DecidableEq, Inhabited

/-- `dict.values()` of the tire-temperature mapping: the values of the keys
that are present. -/
def TireTemps.values (tt : TireTemps) : List ℚ :=
  [tt.front_left, tt.front_right, tt.rear_left, tt.rear_right].filterMap id

/-- `sum(t["tire_temperatures"].values()) / len(t["tire_temperatures"])`
(context_engine.py line 156).  When the mapping is empty the Python division
raises `ZeroDivisionError`, modelled as an error. -/
def TireTemps.avg (tt : TireTemps) : Except String ℚ :=
  if tt.values.length = 0 then Except.error "ZeroDivisionError: division by zero"
  else Except.ok (tt.values.sum / (tt.values.length : ℚ))

/-- One telemetry sample (the `telemetry` dict of `ContextEngine.update`).
Field names follow the keys the engine reads: `speed`, `rpm`, `gear`, `fuel`,
`tire_temperatures`, `lap_time`, `best_lap_time`, `current_lap`, `position`,
`timestamp`. -/
structure Sample where
  timestamp : Option ℚ := none
  speed : Option ℚ := none
  rpm : Option ℤ := none
  gear : Option ℤ := none
  fuel : Option ℚ := none
  tire_temperatures : Option TireTemps := none
  lap_time : Option ℚ := none
  best_lap_time : Option ℚ := none
  current_lap : Option ℤ := none
  position : Option ℤ := none
  deriving Repr, DecidableEq, Inhabited

/-- Python truthiness of the telemetry dict: `not telemetry` holds exactly
when the dict has no keys, i.e. every modelled field is absent. -/
def Sample.isEmpty (s : Sample) : Bool :=
  s.timestamp.isNone && s.speed.isNone && s.rpm.isNone && s.gear.isNone &&
  s.fuel.isNone && s.tire_temperatures.isNone && s.lap_time.isNone &&
  s.best_lap_time.isNone && s.current_lap.isNone && s.position.isNone

/-- `collections.deque(maxlen=n)` holding samples: appending to a full deque
evicts from the left. -/
structure Deque where
  maxlen : Nat
  items : List Sample
  deriving Repr, DecidableEq

/-- `deque.append`: append on the right; if the length would exceed `maxlen`,
the leftmost (oldest) entries are discarded. -/
def Deque.push (d : Deque) (s : Sample) : Deque :=
  let l := d.items ++ [s]
  ⟨d.maxlen, l.drop (l.length - d.maxlen)⟩

/-- `len(deque)`. -/
def Deque.len (d : Deque) : Nat := d.items.length

/-- `deque[-1]`; the source only evaluates it behind a non-emptiness guard. -/
def Deque.last (d : Deque) : Sample := d.items.getLastD default

/-- `deque[-2]`; the source only evaluates it when `len > 1`. -/
def Deque.secondLast (d : Deque) : Sample :=
  d.items.getD (d.items.length - 2) default

/-- `deque[-k:]`: CPython `collections.deque` supports integer subscripts only;
subscripting with a slice raises `TypeError`, whatever the deque contents, so
this operation always fails. -/
def Deque.sliceLast (_d : Deque) (_k : Nat) : Except String (List Sample) :=
  Except.error "TypeError: sequence index must be integer, not slice"

/-- The `ContextEngine` state (`__init__`, context_engine.py lines 11-22).
The attribute `_last_lap` is created dynamically by `update`; the source
tests for it with `hasattr`, modelled here by `last_lap = none` meaning the
attribute has never been assigned. -/
structure Engine where
  history_size : Nat
  telemetry_history : Deque
  best_lap_time : Option ℚ
  current_lap_start_time : Option ℚ
  last_lap_time : Option ℚ
  last_lap : Option ℤ
  deriving Repr, DecidableEq

/-- `ContextEngine(history_size)`; the source default is `history_size=10`. -/
def Engine.init (history_size : Nat) : Engine :=
  { history_size := history_size
    telemetry_history := ⟨history_size, []⟩
    best_lap_time := none
    current_lap_start_time := none
    last_lap_time := none
    last_lap := none }

/-- Lines 35-36 of `update`: if `"timestamp" not in telemetry`, set it to
`time.time()`, supplied here as the parameter `now`. -/
def stampTimestamp (now : ℚ) (s : Sample) : Sample :=
  if s.timestamp.isNone then { s with timestamp := some now } else s

/-- Python truthiness of an optional numeric value, as in
`if telemetry["best_lap_time"]:`: present and non-zero. -/
def truthy (v : Option ℚ) : Bool :=
  match v with
  | some x => decide (x ≠ 0)
  | none => false

/-- Lines 39-41 of `update`: the outer `if` runs when the `best_lap_time` key
is present and truthy (Python treats `0.0` and `None` as falsy); the inner
`if self.best_lap_time is None or telemetry["best_lap_time"] <
self.best_lap_time` then keeps the minimum value seen so far. -/
def updateBestLap (old : Option ℚ) (v : Option ℚ) : Option ℚ :=
  if truthy v then
    if old.isNone = true ∨ v.getD 0 < old.getD 0 then v else old
  else old

/-- Lines 44-49 of `update`: lap tracking.  Returns the new `_last_lap`, the
new `current_lap_start_time`, and whether a new-lap transition fired (the
condition of the `if` on line 46). -/
def lapStep (lastLap : Option ℤ) (startTime : Option ℚ) (t : Sample) :
    Option ℤ × Option ℚ × Bool :=
  match t.current_lap with
  | none => (lastLap, startTime, false)
  | some cl =>
    if lastLap.isSome = true ∧ some cl ≠ lastLap then (some cl, t.timestamp, true)
    else (some cl, startTime, false)

/-- `ContextEngine.update` (lines 24-52), additionally exposing the internal
new-lap transition as a boolean signal for specification purposes. -/
def Engine.updateWithSignal (e : Engine) (now : ℚ) (telemetry : Sample) :
    Engine × Bool :=
  if telemetry.isEmpty then (e, false)
  else
    let t := stampTimestamp now telemetry
    let best := updateBestLap e.best_lap_time t.best_lap_time
    let lap := lapStep e.last_lap e.current_lap_start_time t
    ({ e with
        best_lap_time := best
        last_lap := lap.1
        current_lap_start_time := lap.2.1
        telemetry_history := e.telemetry_history.push t },
      lap.2.2)

/-- `ContextEngine.update`. -/
def Engine.update (e : Engine) (now : ℚ) (telemetry : Sample) : Engine :=
  (e.updateWithSignal now telemetry).1

/-- A sequence of `update` calls; each input pairs the wall-clock time of the
call with the sample passed in. -/
def runUpdates (e : Engine) (inputs : List (ℚ × Sample)) : Engine :=
  inputs.foldl (fun acc p => acc.update p.1 p.2) e

/-- The lap-transition signals produced by a sequence of `update` calls. -/
def runSignals (e : Engine) (inputs : List (ℚ × Sample)) : List Bool :=
  match inputs with
  | [] => []
  | p :: rest =>
    ((e.updateWithSignal p.1 p.2).2) :: runSignals (e.updateWithSignal p.1 p.2).1 rest

/-- The `deltas` dict built by `_calculate_deltas`: one optional entry per
tracked field. -/
structure Deltas where
  speed : Option ℚ
  fuel : Option ℚ
  rpm : Option ℤ
  deriving Repr, DecidableEq

/-- `ContextEngine._calculate_deltas` (lines 131-144): each field is present in
the result exactly when it is present in both samples. -/
def calculate_deltas (previous current : Sample) : Deltas :=
  { speed :=
      match previous.speed, current.speed with
      | some p, some c => some (c - p)
      | _, _ => none
    fuel :=
      match previous.fuel, current.fuel with
      | some p, some c => some (c - p)
      | _, _ => none
    rpm :=
      match previous.rpm, current.rpm with
      | some p, some c => some (c - p)
      | _, _ => none }

/-- The `analysis` dict built by `_analyze_performance`. -/
structure Analysis where
  tire_temp_trend : Option String
  fuel_consumption_rate : Option ℚ
  deriving Repr, DecidableEq

/-- Lines 154-160 of `_analyze_performance`, as they would run on an already
extracted window list: tire-temperature trend. -/
def tireTrendBlock (window : List Sample) : Except String (Option String) :=
  if window.all fun t => t.tire_temperatures.isSome then do
    let recent_temps ← window.mapM fun t =>
      match t.tire_temperatures with
      | some tt => tt.avg
      | none => Except.error "KeyError: tire_temperatures"
    if recent_temps.length ≥ 2 then
      Except.ok (some (if recent_temps.getLastD 0 > recent_temps.headD 0
                       then "increasing" else "decreasing"))
    else Except.ok none
  else Except.ok none

/-- Lines 163-167 of `_analyze_performance`, as they would run on an already
extracted window list: the value stored under `fuel_consumption_rate` is
`fuel_samples[0] - fuel_samples[-1]`, a plain difference. -/
def fuelRateBlock (window : List Sample) : Except String (Option ℚ) :=
  if window.all fun t => t.fuel.isSome then do
    let fuel_samples ← window.mapM fun t =>
      match t.fuel with
      | some v => Except.ok v
      | none => Except.error "KeyError: fuel"
    if fuel_samples.length ≥ 2 then
      Except.ok (some (fuel_samples.headD 0 - fuel_samples.getLastD 0))
    else Except.ok none
  else Except.ok none

/-- `ContextEngine._analyze_performance` (lines 146-169).  With fewer than two
samples it returns the empty analysis.  Otherwise the first window extraction,
`self.telemetry_history[-3:]`, subscripts the deque with a slice and raises
`TypeError`, so the two blocks after it are unreachable in the source. -/
def Engine.analyze_performance (e : Engine) : Except String Analysis :=
  if e.telemetry_history.len < 2 then Except.ok ⟨none, none⟩
  else do
    let w3 ← e.telemetry_history.sliceLast 3
    let trend ← tireTrendBlock w3
    let w5 ← e.telemetry_history.sliceLast 5
    let rate ← fuelRateBlock w5
    Except.ok ⟨trend, rate⟩

/-- The context dict built by `get_detailed_context`. -/
structure Context where
  current : Sample
  best_lap_time : Option ℚ
  history_size : Nat
  deltas : Option Deltas
  analysis : Analysis
  deriving Repr, DecidableEq

/-- `ContextEngine.get_detailed_context` (lines 104-129).  The `{}` returned on
an empty history is modelled as `Except.ok none`; a raised exception as
`Except.error`. -/
def Engine.get_detailed_context (e : Engine) : Except String (Option Context) :=
  if e.telemetry_history.items.isEmpty then Except.ok none
  else do
    let current := e.telemetry_history.last
    let deltas :=
      if e.telemetry_history.len > 1 then
        some (calculate_deltas e.telemetry_history.secondLast current)
      else none
    let analysis ← e.analyze_performance
    Except.ok (some
      { current := current
        best_lap_time := e.best_lap_time
        history_size := e.telemetry_history.len
        deltas := deltas
        analysis := analysis })

/-- Fixed-point decimal rendering standing in for the Python format specifier
`:.1f` / `:.2f`: round to `prec` decimal places. -/
def fmtFixed (prec : Nat) (q : ℚ) : String :=
  let p : ℕ := 10 ^ prec
  let scaled : ℤ := Int.floor (q * (p : ℚ) + 1 / 2)
  let sign := if scaled < 0 then "-" else ""
  let a := scaled.natAbs
  let fracStr := toString (a % p)
  let pad := String.mk (List.replicate (prec - fracStr.length) '0')
  if prec = 0 then sign ++ toString (a / p)
  else sign ++ toString (a / p) ++ "." ++ pad ++ fracStr

/-- `ContextEngine.get_context_summary` (lines 54-102). -/
def Engine.get_context_summary (e : Engine) : String :=
  if e.telemetry_history.items.isEmpty then "No telemetry data available."
  else
    let current := e.telemetry_history.last
    let parts0 : List String := []
    let parts1 := match current.speed with
      | some v => parts0 ++ ["Speed: " ++ fmtFixed 1 v ++ " km/h"]
      | none => parts0
    let parts2 := match current.gear with
      | some g => parts1 ++ ["Gear: " ++ toString g]
      | none => parts1
    let parts3 := match current.rpm with
      | some r => parts2 ++ ["RPM: " ++ toString r]
      | none => parts2
    let parts4 :=
      if truthy current.lap_time then
        parts3 ++ ["Current lap time: " ++ fmtFixed 2 (current.lap_time.getD 0) ++ "s"]
      else parts3
    let parts5 :=
      if truthy e.best_lap_time then
        let base := parts4 ++ ["Best lap time: " ++ fmtFixed 2 (e.best_lap_time.getD 0) ++ "s"]
        if truthy current.lap_time then
          let delta := current.lap_time.getD 0 - e.best_lap_time.getD 0
          if delta > 0 then base ++ ["Delta: +" ++ fmtFixed 2 delta ++ "s"]
          else base ++ ["Delta: " ++ fmtFixed 2 delta ++ "s"]
        else base
      else parts4
    let parts6 := match current.fuel with
      | some v => parts5 ++ ["Fuel: " ++ fmtFixed 1 v ++ "L"]
      | none => parts5
    let parts7 := match current.tire_temperatures with
      | some tt =>
        let avg := if tt.values.length = 0 then 0 else tt.values.sum / (tt.values.length : ℚ)
        parts6 ++ ["Avg tire temp: " ++ fmtFixed 1 avg ++ "°C"]
      | none => parts6
    let parts8 := match current.position with
      | some p => parts7 ++ ["Position: P" ++ toString p]
      | none => parts7
    String.intercalate ". " parts8 ++ "."

/-- The last `min k (length l)` elements of a list, in order: the value of the
Python slice `l[-k:]` on a list. -/
def lastN {α : Type} (k : Nat) (l : List α) : List α := l.drop (l.length - k)

/-- Comparison on tracked best-lap values in which an untracked value (`none`)
counts as plus infinity: `bestLapLE a b` says `a` is at most `b`. -/
def bestLapLE (a b : Option ℚ) : Prop :=
  match a, b with
  | _, none => True
  | none, some _ => False
  | some x, some y => x ≤ y

/- Concrete samples used as inputs of witnesses and counterexamples. -/

/-- A sample whose dict is empty. -/
def emptySample : Sample := {}

/-- An ordinary sample carrying a timestamp and a speed. -/
def plainSample (ts v : ℚ) : Sample := { timestamp := some ts, speed := some v }

/-- A sample carrying a timestamp and a fuel reading. -/
def fuelSample (ts v : ℚ) : Sample := { timestamp := some ts, fuel := some v }

/-- A sample carrying a timestamp and a complete tire reading with all four
wheels at the same temperature. -/
def tireSample (ts v : ℚ) : Sample :=
  { timestamp := some ts
    tire_temperatures := some
      { front_left := some v, front_right := some v
        rear_left := some v, rear_right := some v } }

/-- A sample carrying a timestamp and a lap number. -/
def lapSample (ts : ℚ) (lap : ℤ) : Sample :=
  { timestamp := some ts, current_lap := some lap }

/-- A sample carrying a timestamp and a best lap time. -/
def bestSample (ts b : ℚ) : Sample :=
  { timestamp := some ts, best_lap_time := some b }

/-- The lap sequence [1,1,1,2,2,3] of the specification, with increasing
timestamps. -/
def lapSeq : List (ℚ × Sample) :=
  [(1, lapSample 1 1), (2, lapSample 2 1), (3, lapSample 3 1),
   (4, lapSample 4 2), (5, lapSample 5 2), (6, lapSample 6 3)]

/-- The best-lap sequence [95.0, 94.5, 94.8, 93.9] of the specification. -/
def bestSeq : List (ℚ × Sample) :=
  [(1, bestSample 1 95), (2, bestSample 2 (mkRat 189 2)),
   (3, bestSample 3 (mkRat 474 5)), (4, bestSample 4 (mkRat 939 10))]

/-- Three pushes into a capacity-2 engine, to exercise eviction. -/
def c4Inputs : List (ℚ × Sample) :=
  [(1, plainSample 1 100), (2, plainSample 2 110), (3, plainSample 3 120)]

/-- The delta example of the specification: previous sample with speed 100 and
fuel 40. -/
def deltaPrev : Sample := { speed := some 100, fuel := some 40 }

/-- The delta example of the specification: current sample with speed 110,
fuel 39.5 and rpm 6000. -/
def deltaCurr : Sample :=
  { speed := some 110, fuel := some (79 / 2), rpm := some 6000 }

/-- An engine that has stored one sample with timestamp 5. -/
def c8Engine : Engine := (Engine.init 10).update 0 (plainSample 5 100)

/-! Theorems. -/

/-- C1: the claim states that `get_context()` never raises, in particular on
histories of two or more samples.  In the source, `_analyze_performance`
subscripts the `collections.deque` history with the slice
`self.telemetry_history[-3:]`, which raises `TypeError` in CPython; so
`get_detailed_context` raises on every history with at least two samples.
Evaluation at a concrete two-sample history exhibits the failure. -/
theorem C1_get_context_raises :
    (((Engine.init 10).update 1 (plainSample 1 100)).update 2
        (plainSample 2 101)).get_detailed_context
      = Except.error "TypeError: sequence index must be integer, not slice" := by
  rfl

/-- C2: the claim states that with a fully fuelled last-5 window,
`get_context()` reports `(oldest.fuel - newest.fuel) / (newest.timestamp -
oldest.timestamp)`.  On the example window given by the specification (fuel 45.0 at
t = 0, fuel 44.5 at t = 5) the call instead raises `TypeError` (deque slice)
before any fuel computation; the fuel code below the failing slice would be
`fuel_samples[0] - fuel_samples[-1]`, a plain difference, were it reachable. -/
theorem C2_fuel_rate_raises :
    (((Engine.init 10).update 0 (fuelSample 0 45)).update 5
        (fuelSample 5 (mkRat 89 2))).get_detailed_context
      = Except.error "TypeError: sequence index must be integer, not slice" := by
  rfl

/-- C3: the claim states that with a last-3 window of complete tire readings,
`get_context()` reports the tire-temperature trend.  On a concrete window of
three complete readings the call instead raises `TypeError` (deque slice)
before any trend computation; in the unreachable trend code below the failing
slice, equal averages would yield "decreasing", never the claimed "stable". -/
theorem C3_tire_trend_raises :
    ((((Engine.init 10).update 1 (tireSample 1 85)).update 2
        (tireSample 2 85)).update 3 (tireSample 3 85)).get_detailed_context
      = Except.error "TypeError: sequence index must be integer, not slice" := by
  rfl

/-- C9: on an engine that has never ingested a sample, `get_detailed_context`
returns the empty context and `get_context_summary` returns the fixed no-data
message; neither raises. -/
theorem C9_empty_history (e : Engine) (h : e.telemetry_history.items = []) :
    e.get_detailed_context = Except.ok none ∧
    e.get_context_summary = "No telemetry data available." := by
  unfold Engine.get_detailed_context Engine.get_context_summary
  rw [h]
  simp

/-- Witness for C9: a freshly constructed engine. -/
theorem C9_empty_history_witness :
    (Engine.init 10).get_detailed_context = Except.ok none ∧
    (Engine.init 10).get_context_summary = "No telemetry data available." :=
  C9_empty_history (Engine.init 10) rfl

/-- C10: updating with an empty (falsy) sample dict is a complete no-op: the
engine state, the history included, is unchanged and no lap signal fires. -/
theorem C10_empty_sample_noop (e : Engine) (now : ℚ) (t : Sample)
    (h : t.isEmpty = true) :
    e.update now t = e ∧ (e.updateWithSignal now t).2 = false := by
  unfold Engine.update Engine.updateWithSignal
  rw [h]
  simp

/-- Witness for C10: the empty sample on a concrete engine. -/
theorem C10_empty_sample_noop_witness :
    (Engine.init 10).update 1 emptySample = Engine.init 10 ∧
    ((Engine.init 10).updateWithSignal 1 emptySample).2 = false :=
  C10_empty_sample_noop (Engine.init 10) 1 emptySample rfl

/-! Helper lemmas shared between the claim theorems. -/

theorem stampTimestamp_best_lap_time (now : ℚ) (t : Sample) :
    (stampTimestamp now t).best_lap_time = t.best_lap_time := by
  unfold stampTimestamp
  split <;> rfl

theorem stampTimestamp_current_lap (now : ℚ) (t : Sample) :
    (stampTimestamp now t).current_lap = t.current_lap := by
  unfold stampTimestamp
  split <;> rfl

theorem isEmpty_false_of_best (t : Sample) (v : ℚ) (h : t.best_lap_time = some v) :
    t.isEmpty = false := by
  simp [Sample.isEmpty, h]

theorem isEmpty_false_of_lap (t : Sample) (c : ℤ) (h : t.current_lap = some c) :
    t.isEmpty = false := by
  simp [Sample.isEmpty, h]

theorem update_of_isEmpty (e : Engine) (now : ℚ) (t : Sample)
    (h : t.isEmpty = true) : e.update now t = e := by
  unfold Engine.update Engine.updateWithSignal
  rw [h]
  simp

theorem update_best_lap_time (e : Engine) (now : ℚ) (t : Sample)
    (h : t.isEmpty = false) :
    (e.update now t).best_lap_time
      = updateBestLap e.best_lap_time t.best_lap_time := by
  unfold Engine.update Engine.updateWithSignal
  rw [h]
  simp [stampTimestamp_best_lap_time]

theorem bestLapLE_refl (a : Option ℚ) : bestLapLE a a := by
  cases a <;> simp [bestLapLE]

theorem bestLapLE_updateBestLap (old v : Option ℚ) :
    bestLapLE (updateBestLap old v) old := by
  unfold updateBestLap
  by_cases ht : truthy v = true
  · rw [if_pos ht]
    rcases v with _ | b
    · simp [truthy] at ht
    · rcases old with _ | o
      · by_cases hc : (Option.isNone (none : Option ℚ) = true ∨
            (some b).getD 0 < (none : Option ℚ).getD 0)
        · rw [if_pos hc]
          simp [bestLapLE]
        · rw [if_neg hc]
          exact bestLapLE_refl _
      · by_cases hc : (Option.isNone (some o) = true ∨
            (some b).getD 0 < (some o).getD 0)
        · rw [if_pos hc]
          rcases hc with hc | hc
          · simp at hc
          · simp only [Option.getD_some] at hc
            simpa [bestLapLE] using le_of_lt hc
        · rw [if_neg hc]
          exact bestLapLE_refl _
  · rw [if_neg ht]
    exact bestLapLE_refl _

/-- C5 as stated fails on Python truthiness: the source guards the best-lap
update with `telemetry["best_lap_time"]` being truthy, so a sample carrying the
non-null value `0.0` is ignored.  With tracked best 95 and an incoming 0, the
tracked best stays 95 while the claim demands min(95, 0) = 0. -/
theorem C5_zero_best_lap_counterexample :
    (((Engine.init 10).update 1 (bestSample 1 95)).update 2
        (bestSample 2 0)).best_lap_time = some 95 ∧
    ¬ ((95 : ℚ) = min 95 0) := by
  constructor
  · rfl
  · rw [min_eq_right (by norm_num : (0 : ℚ) ≤ 95)]
    norm_num

/-- C5 amended: whenever update receives a sample whose best_lap_time is
present, non-null and non-zero (truthy), the tracked best becomes
min(previous tracked best or +infinity, the sample value); an absent or zero
best_lap_time leaves the tracked best unchanged; the tracked best is
monotonically non-increasing; and the sequence [95.0, 94.5, 94.8, 93.9]
yields tracked best 93.9. -/
theorem C5_best_lap_amended :
    (∀ (e : Engine) (now : ℚ) (t : Sample) (v : ℚ),
        t.best_lap_time = some v → v ≠ 0 →
        (e.update now t).best_lap_time = some (min (e.best_lap_time.getD v) v)) ∧
    (∀ (e : Engine) (now : ℚ) (t : Sample),
        t.best_lap_time = none ∨ t.best_lap_time = some 0 →
        (e.update now t).best_lap_time = e.best_lap_time) ∧
    (∀ (e : Engine) (now : ℚ) (t : Sample),
        bestLapLE (e.update now t).best_lap_time e.best_lap_time) ∧
    (runUpdates (Engine.init 10) bestSeq).best_lap_time = some (939 / 10) := by
  refine ⟨?_, ?_, ?_, ?_⟩
  · intro e now t v hv hv0
    rw [update_best_lap_time e now t (isEmpty_false_of_best t v hv), hv]
    unfold updateBestLap
    rw [if_pos (by simp [truthy, hv0])]
    rcases e.best_lap_time with _ | o
    · simp [min_self]
    · by_cases hlt : v < o
      · rw [if_pos (Or.inr (by simpa using hlt)), Option.getD_some,
          min_eq_right (le_of_lt hlt)]
      · rw [if_neg (by simpa using hlt), Option.getD_some,
          min_eq_left (le_of_not_lt hlt)]
  · intro e now t h
    by_cases hemp : t.isEmpty = true
    · rw [update_of_isEmpty e now t hemp]
    · rw [update_best_lap_time e now t (by revert hemp; cases t.isEmpty <;> simp)]
      rcases h with h | h <;> rw [h] <;> simp [updateBestLap, truthy]
  · intro e now t
    by_cases hemp : t.isEmpty = true
    · rw [update_of_isEmpty e now t hemp]
      exact bestLapLE_refl _
    · rw [update_best_lap_time e now t (by revert hemp; cases t.isEmpty <;> simp)]
      exact bestLapLE_updateBestLap _ _
  · rw [show (939 : ℚ) / 10 = mkRat 939 10 by norm_num [Rat.mkRat_eq_div]]
    rfl

/-- Witness for the amended C5: a fresh engine receiving best lap 95. -/
theorem C5_best_lap_amended_witness :
    ((Engine.init 10).update 1 (bestSample 1 95)).best_lap_time
      = some (min ((Engine.init 10).best_lap_time.getD 95) 95) :=
  C5_best_lap_amended.1 (Engine.init 10) 1 (bestSample 1 95) 95 rfl (by norm_num)

/-- C7: for every pair of samples, each of the fields speed, fuel and rpm is
present in the delta result with value current minus previous exactly when it
is present in both samples, and absent from the result whenever it is absent
from either sample. -/
theorem C7_delta_fields (previous current : Sample) :
    (∀ a b : ℚ, previous.speed = some a → current.speed = some b →
        (calculate_deltas previous current).speed = some (b - a)) ∧
    (previous.speed = none ∨ current.speed = none →
        (calculate_deltas previous current).speed = none) ∧
    (∀ a b : ℚ, previous.fuel = some a → current.fuel = some b →
        (calculate_deltas previous current).fuel = some (b - a)) ∧
    (previous.fuel = none ∨ current.fuel = none →
        (calculate_deltas previous current).fuel = none) ∧
    (∀ a b : ℤ, previous.rpm = some a → current.rpm = some b →
        (calculate_deltas previous current).rpm = some (b - a)) ∧
    (previous.rpm = none ∨ current.rpm = none →
        (calculate_deltas previous current).rpm = none) := by
  refine ⟨?_, ?_, ?_, ?_, ?_, ?_⟩
  · intro a b ha hb
    simp [calculate_deltas, ha, hb]
  · rintro (h | h) <;>
      rcases hp : previous.speed with _ | p <;>
      rcases hc : current.speed with _ | c <;>
      simp_all [calculate_deltas]
  · intro a b ha hb
    simp [calculate_deltas, ha, hb]
  · rintro (h | h) <;>
      rcases hp : previous.fuel with _ | p <;>
      rcases hc : current.fuel with _ | c <;>
      simp_all [calculate_deltas]
  · intro a b ha hb
    simp [calculate_deltas, ha, hb]
  · rintro (h | h) <;>
      rcases hp : previous.rpm with _ | p <;>
      rcases hc : current.rpm with _ | c <;>
      simp_all [calculate_deltas]

/-- Witness for C7: the example pair from the specification, where speed and fuel are
present in both samples and rpm only in the current one. -/
theorem C7_delta_fields_witness :
    (calculate_deltas deltaPrev deltaCurr).speed = some (110 - 100) ∧
    (calculate_deltas deltaPrev deltaCurr).fuel = some (79 / 2 - 40) ∧
    (calculate_deltas deltaPrev deltaCurr).rpm = none :=
  ⟨(C7_delta_fields deltaPrev deltaCurr).1 100 110 rfl rfl,
   (C7_delta_fields deltaPrev deltaCurr).2.2.1 40 (79 / 2) rfl rfl,
   (C7_delta_fields deltaPrev deltaCurr).2.2.2.2.2 (Or.inl rfl)⟩

/-- C8 as stated fails: `update` performs no timestamp validation.  Storing a
sample with timestamp 5 and then one with timestamp 3 leaves both in the
history, so the out-of-order sample is not rejected or dropped. -/
theorem C8_out_of_order_counterexample :
    (((Engine.init 10).update 0 (plainSample 5 100)).update 0
        (plainSample 3 80)).telemetry_history.items.map Sample.timestamp
      = [some 5, some 3] ∧ (3 : ℚ) ≤ 5 := by
  constructor
  · rfl
  · norm_num

/-- C8 amended: `update` never validates timestamps; a non-empty sample whose
(stamped) timestamp is less than or equal to the latest stored timestamp is
still appended to the history (subject only to capacity eviction), so stored
timestamps strictly increase only when the input stream is already strictly
increasing. -/
theorem C8_out_of_order_amended (e : Engine) (now : ℚ) (t prev : Sample)
    (ts tsp : ℚ) (hne : t.isEmpty = false)
    (hcap : 1 ≤ e.telemetry_history.maxlen)
    (hlast : e.telemetry_history.items.getLast? = some prev)
    (hts : (stampTimestamp now t).timestamp = some ts)
    (htsp : prev.timestamp = some tsp)
    (hle : ts ≤ tsp) :
    (e.update now t).telemetry_history.items.getLast?
      = some (stampTimestamp now t) ∧
    (e.update now t).telemetry_history.items.length
      = min (e.telemetry_history.items.length + 1) e.telemetry_history.maxlen := by
  have hitems : (e.update now t).telemetry_history.items
      = (e.telemetry_history.items ++ [stampTimestamp now t]).drop
          ((e.telemetry_history.items ++ [stampTimestamp now t]).length
            - e.telemetry_history.maxlen) := by
    unfold Engine.update Engine.updateWithSignal Deque.push
    rw [hne]
    simp
  rw [hitems]
  constructor
  · rw [List.getLast?_drop, if_neg (by simp; omega)]
    rw [List.getLast?_append_of_ne_nil _ (by simp)]
    rfl
  · simp only [List.length_drop, List.length_append, List.length_cons,
      List.length_nil]
    omega

theorem lastN_length_le {α : Type} (k : Nat) (l : List α) :
    (lastN k l).length ≤ k := by
  simp only [lastN, List.length_drop]
  omega

theorem lastN_of_length_le {α : Type} (k : Nat) (l : List α)
    (h : l.length ≤ k) : lastN k l = l := by
  unfold lastN
  rw [Nat.sub_eq_zero_of_le h, List.drop_zero]

theorem lastN_append_one {α : Type} (k : Nat) (l : List α) (x : α) :
    lastN k (lastN k l ++ [x]) = lastN k (l ++ [x]) := by
  unfold lastN
  rw [List.drop_append_eq_append_drop, List.drop_append_eq_append_drop,
    List.drop_drop]
  congr 1
  · congr 1
    simp only [List.length_append, List.length_drop, List.length_cons,
      List.length_nil]
    omega
  · congr 1
    simp only [List.length_append, List.length_drop, List.length_cons,
      List.length_nil]
    omega

theorem lastN_append {α : Type} (k : Nat) (l2 l : List α) :
    lastN k (lastN k l ++ l2) = lastN k (l ++ l2) := by
  induction l2 generalizing l with
  | nil =>
    rw [List.append_nil, List.append_nil]
    exact lastN_of_length_le k _ (lastN_length_le k l)
  | cons a l2 ih =>
    have h1 : lastN k l ++ a :: l2 = (lastN k l ++ [a]) ++ l2 := by simp
    have h2 : l ++ a :: l2 = (l ++ [a]) ++ l2 := by simp
    rw [h1, h2, ← ih (l ++ [a]), ← lastN_append_one k l a, ih (lastN k l ++ [a])]

theorem getLast?_lastN {α : Type} (k : Nat) (l : List α) (hk : 1 ≤ k)
    (hl : l ≠ []) : (lastN k l).getLast? = l.getLast? := by
  unfold lastN
  rw [List.getLast?_drop, if_neg]
  have := List.length_pos.mpr hl
  omega

theorem runUpdates_items (inputs : List (ℚ × Sample)) :
    ∀ (e : Engine), (∀ p ∈ inputs, p.2.isEmpty = false) →
      (runUpdates e inputs).telemetry_history.maxlen
          = e.telemetry_history.maxlen ∧
      (runUpdates e inputs).telemetry_history.items
        = lastN e.telemetry_history.maxlen
            (e.telemetry_history.items
              ++ inputs.map fun p => stampTimestamp p.1 p.2)
      ∨ e.telemetry_history.items.length > e.telemetry_history.maxlen := by
  induction inputs with
  | nil =>
    intro e hne
    by_cases hlen : e.telemetry_history.items.length ≤ e.telemetry_history.maxlen
    · refine Or.inl ⟨rfl, ?_⟩
      rw [List.map_nil, List.append_nil]
      exact (lastN_of_length_le _ _ hlen).symm
    · exact Or.inr (by omega)
  | cons p rest ih =>
    intro e hne
    by_cases hlen : e.telemetry_history.items.length ≤ e.telemetry_history.maxlen
    swap
    · exact Or.inr (by omega)
    have hp : p.2.isEmpty = false := hne p (List.mem_cons_self _ _)
    have hstep : (e.update p.1 p.2).telemetry_history
        = ⟨e.telemetry_history.maxlen,
           lastN e.telemetry_history.maxlen
             (e.telemetry_history.items ++ [stampTimestamp p.1 p.2])⟩ := by
      unfold Engine.update Engine.updateWithSignal Deque.push lastN
      rw [hp]
      simp
    have hrun : runUpdates e (p :: rest) = runUpdates (e.update p.1 p.2) rest := rfl
    rcases ih (e.update p.1 p.2) (fun q hq => hne q (List.mem_cons_of_mem _ hq))
      with ⟨hm, hi⟩ | hbad
    · rw [hstep] at hm hi
      dsimp only at hm hi
      refine Or.inl ⟨by rw [hrun, hm], ?_⟩
      rw [hrun, hi, lastN_append]
      congr 1
      simp
    · rw [hstep] at hbad
      dsimp only at hbad
      have := lastN_length_le e.telemetry_history.maxlen
        (e.telemetry_history.items ++ [stampTimestamp p.1 p.2])
      omega

/-- C4: starting from a fresh engine of any positive capacity, after any
sequence of non-empty samples the history holds exactly the last
`history_size` stamped samples in ingestion order (so its length never
exceeds the capacity, the oldest entries are the ones evicted, and the last
entry is the most recently pushed sample). -/
theorem C4_history_buffer (hs : Nat) (hpos : 1 ≤ hs) (inputs : List (ℚ × Sample))
    (hne : ∀ p ∈ inputs, p.2.isEmpty = false) :
    (runUpdates (Engine.init hs) inputs).telemetry_history.items.length ≤ hs ∧
    (runUpdates (Engine.init hs) inputs).telemetry_history.items
      = lastN hs (inputs.map fun p => stampTimestamp p.1 p.2) ∧
    (inputs ≠ [] →
      (runUpdates (Engine.init hs) inputs).telemetry_history.items.getLast?
        = (inputs.map fun p => stampTimestamp p.1 p.2).getLast?) := by
  rcases runUpdates_items inputs (Engine.init hs) hne with ⟨hm, hi⟩ | hbad
  swap
  · simp [Engine.init] at hbad
  have hi' : (runUpdates (Engine.init hs) inputs).telemetry_history.items
      = lastN hs (inputs.map fun p => stampTimestamp p.1 p.2) := by
    simpa [Engine.init] using hi
  refine ⟨?_, hi', ?_⟩
  · rw [hi']
    exact lastN_length_le hs _
  · intro hne2
    rw [hi']
    refine getLast?_lastN hs _ hpos ?_
    simpa using hne2

/-- Witness for C4: capacity 2 with three pushes, so that one eviction
happens. -/
theorem C4_history_buffer_witness :
    (runUpdates (Engine.init 2) c4Inputs).telemetry_history.items.length ≤ 2 ∧
    (runUpdates (Engine.init 2) c4Inputs).telemetry_history.items
      = lastN 2 (c4Inputs.map fun p => stampTimestamp p.1 p.2) ∧
    (c4Inputs ≠ [] →
      (runUpdates (Engine.init 2) c4Inputs).telemetry_history.items.getLast?
        = (c4Inputs.map fun p => stampTimestamp p.1 p.2).getLast?) :=
  C4_history_buffer 2 (by norm_num) c4Inputs (by decide)

theorem update_lap_state (e : Engine) (now : ℚ) (t : Sample)
    (h : t.isEmpty = false) :
    (e.update now t).last_lap
        = (lapStep e.last_lap e.current_lap_start_time (stampTimestamp now t)).1 ∧
    (e.update now t).current_lap_start_time
        = (lapStep e.last_lap e.current_lap_start_time (stampTimestamp now t)).2.1 ∧
    (e.updateWithSignal now t).2
        = (lapStep e.last_lap e.current_lap_start_time (stampTimestamp now t)).2.2 := by
  unfold Engine.update Engine.updateWithSignal
  rw [h]
  simp

/-- C6: the lap tracker records the first observed lap without signalling,
signals exactly on a change of the observed lap (setting the lap start time
to the stamped sample timestamp), keeps silent on an unchanged lap, ignores
samples without a lap, and on the lap sequence [1,1,1,2,2,3] fires exactly at
the first 2 and the first 3. -/
theorem C6_lap_tracker :
    (∀ (e : Engine) (now : ℚ) (t : Sample) (c : ℤ),
        e.last_lap = none → t.current_lap = some c →
        (e.updateWithSignal now t).2 = false ∧
        (e.update now t).last_lap = some c ∧
        (e.update now t).current_lap_start_time = e.current_lap_start_time) ∧
    (∀ (e : Engine) (now : ℚ) (t : Sample) (c l : ℤ),
        e.last_lap = some l → t.current_lap = some c → c ≠ l →
        (e.updateWithSignal now t).2 = true ∧
        (e.update now t).last_lap = some c ∧
        (e.update now t).current_lap_start_time
          = (stampTimestamp now t).timestamp) ∧
    (∀ (e : Engine) (now : ℚ) (t : Sample) (c : ℤ),
        e.last_lap = some c → t.current_lap = some c →
        (e.updateWithSignal now t).2 = false ∧
        (e.update now t).last_lap = some c ∧
        (e.update now t).current_lap_start_time = e.current_lap_start_time) ∧
    (∀ (e : Engine) (now : ℚ) (t : Sample),
        t.current_lap = none →
        (e.updateWithSignal now t).2 = false ∧
        (e.update now t).last_lap = e.last_lap ∧
        (e.update now t).current_lap_start_time = e.current_lap_start_time) ∧
    runSignals (Engine.init 10) lapSeq = [false, false, false, true, false, true] := by
  refine ⟨?_, ?_, ?_, ?_, by rfl⟩
  · intro e now t c hl hc
    obtain ⟨h1, h2, h3⟩ := update_lap_state e now t (isEmpty_false_of_lap t c hc)
    refine ⟨?_, ?_, ?_⟩
    · rw [h3]
      simp [lapStep, stampTimestamp_current_lap, hc, hl]
    · rw [h1]
      simp [lapStep, stampTimestamp_current_lap, hc, hl]
    · rw [h2]
      simp [lapStep, stampTimestamp_current_lap, hc, hl]
  · intro e now t c l hl hc hne
    obtain ⟨h1, h2, h3⟩ := update_lap_state e now t (isEmpty_false_of_lap t c hc)
    refine ⟨?_, ?_, ?_⟩
    · rw [h3]
      simp [lapStep, stampTimestamp_current_lap, hc, hl, hne]
    · rw [h1]
      simp [lapStep, stampTimestamp_current_lap, hc, hl, hne]
    · rw [h2]
      simp [lapStep, stampTimestamp_current_lap, hc, hl, hne]
  · intro e now t c hl hc
    obtain ⟨h1, h2, h3⟩ := update_lap_state e now t (isEmpty_false_of_lap t c hc)
    refine ⟨?_, ?_, ?_⟩
    · rw [h3]
      simp [lapStep, stampTimestamp_current_lap, hc, hl]
    · rw [h1]
      simp [lapStep, stampTimestamp_current_lap, hc, hl]
    · rw [h2]
      simp [lapStep, stampTimestamp_current_lap, hc, hl]
  · intro e now t hc
    by_cases hemp : t.isEmpty = true
    · refine ⟨?_, ?_, ?_⟩
      · unfold Engine.updateWithSignal
        rw [hemp]
        simp
      · rw [update_of_isEmpty e now t hemp]
      · rw [update_of_isEmpty e now t hemp]
    · obtain ⟨h1, h2, h3⟩ :=
        update_lap_state e now t (by revert hemp; cases t.isEmpty <;> simp)
      refine ⟨?_, ?_, ?_⟩
      · rw [h3]
        simp [lapStep, stampTimestamp_current_lap, hc]
      · rw [h1]
        simp [lapStep, stampTimestamp_current_lap, hc]
      · rw [h2]
        simp [lapStep, stampTimestamp_current_lap, hc]

/-- Witness for C6: a fresh engine observing its first lap. -/
theorem C6_lap_tracker_witness :
    ((Engine.init 10).updateWithSignal 1 (lapSample 1 1)).2 = false ∧
    ((Engine.init 10).update 1 (lapSample 1 1)).last_lap = some 1 ∧
    ((Engine.init 10).update 1 (lapSample 1 1)).current_lap_start_time
      = (Engine.init 10).current_lap_start_time :=
  C6_lap_tracker.1 (Engine.init 10) 1 (lapSample 1 1) 1 rfl rfl

/-- Witness for the amended C8: the engine holding a sample stamped 5 receives
a sample stamped 3; the new sample still lands at the end of the history. -/
theorem C8_out_of_order_amended_witness :
    (c8Engine.update 0 (plainSample 3 80)).telemetry_history.items.getLast?
      = some (stampTimestamp 0 (plainSample 3 80)) ∧
    (c8Engine.update 0 (plainSample 3 80)).telemetry_history.items.length
      = min (c8Engine.telemetry_history.items.length + 1)
          c8Engine.telemetry_history.maxlen :=
  C8_out_of_order_amended c8Engine 0 (plainSample 3 80) (plainSample 5 100)
    3 5 rfl (by decide) rfl rfl rfl (by norm_num)

end ApexEngineer
